import Mathlib

/-!
Shallow embedding of `src/health_check_service.py`, a scheduled health-check
notifier.  The script reads credentials from a Google spreadsheet,
authenticates against an auth endpoint, queries a status endpoint and posts
an adaptive-card notification to a chat webhook.

External collaborators (the keys file on disk, the spreadsheet backend, the
three HTTP endpoints) are modelled by a `World` structure that fixes, for a
single run, the outcome of every external call.  Each Python function
becomes a Lean function over the `World`; Python exceptions become
`Except Unit`; the Python failure value `(None, None)` becomes
`PyVal.vpair (PyVal.vjson Json.null) (PyVal.vjson Json.null)`.  Every
function additionally returns the list of observable events it produced
(function invocations of the three pipeline steps and outbound HTTP
requests), so that temporal claims ("no status call occurs") are statements
about the trace of a run.
-/

/-- JSON values, as produced by `json.load` / `response.json()` in the
script.  Numbers never occur in the data the script touches, so they are
omitted. -/
inductive Json where
  | null : Json
  | bool : Bool → Json
  | str : String → Json
  | arr : List Json → Json
  | obj : List (String × Json) → Json

mutual

/-- Decidable equality of JSON values. -/
def Json.decEq : (a b : Json) → Decidable (a = b)
  | .null, .null => .isTrue rfl
  | .bool x, .bool y =>
      if h : x = y then .isTrue (by rw [h]) else .isFalse (by simp [h])
  | .str x, .str y =>
      if h : x = y then .isTrue (by rw [h]) else .isFalse (by simp [h])
  | .arr xs, .arr ys =>
      match Json.decEqArr xs ys with
      | .isTrue h => .isTrue (by rw [h])
      | .isFalse h => .isFalse (by simp [h])
  | .obj fs, .obj gs =>
      match Json.decEqObj fs gs with
      | .isTrue h => .isTrue (by rw [h])
      | .isFalse h => .isFalse (by simp [h])
  | .null, .bool _ => .isFalse (fun h => Json.noConfusion h)
  | .null, .str _ => .isFalse (fun h => Json.noConfusion h)
  | .null, .arr _ => .isFalse (fun h => Json.noConfusion h)
  | .null, .obj _ => .isFalse (fun h => Json.noConfusion h)
  | .bool _, .null => .isFalse (fun h => Json.noConfusion h)
  | .bool _, .str _ => .isFalse (fun h => Json.noConfusion h)
  | .bool _, .arr _ => .isFalse (fun h => Json.noConfusion h)
  | .bool _, .obj _ => .isFalse (fun h => Json.noConfusion h)
  | .str _, .null => .isFalse (fun h => Json.noConfusion h)
  | .str _, .bool _ => .isFalse (fun h => Json.noConfusion h)
  | .str _, .arr _ => .isFalse (fun h => Json.noConfusion h)
  | .str _, .obj _ => .isFalse (fun h => Json.noConfusion h)
  | .arr _, .null => .isFalse (fun h => Json.noConfusion h)
  | .arr _, .bool _ => .isFalse (fun h => Json.noConfusion h)
  | .arr _, .str _ => .isFalse (fun h => Json.noConfusion h)
  | .arr _, .obj _ => .isFalse (fun h => Json.noConfusion h)
  | .obj _, .null => .isFalse (fun h => Json.noConfusion h)
  | .obj _, .bool _ => .isFalse (fun h => Json.noConfusion h)
  | .obj _, .str _ => .isFalse (fun h => Json.noConfusion h)
  | .obj _, .arr _ => .isFalse (fun h => Json.noConfusion h)

/-- Decidable equality of JSON array contents. -/
def Json.decEqArr : (xs ys : List Json) → Decidable (xs = ys)
  | [], [] => .isTrue rfl
  | [], _ :: _ => .isFalse (fun h => List.noConfusion h)
  | _ :: _, [] => .isFalse (fun h => List.noConfusion h)
  | x :: xs, y :: ys =>
      match Json.decEq x y, Json.decEqArr xs ys with
      | .isTrue h1, .isTrue h2 => .isTrue (by rw [h1, h2])
      | .isFalse h1, _ => .isFalse (by simp [h1])
      | _, .isFalse h2 => .isFalse (by simp [h2])

/-- Decidable equality of JSON object fields. -/
def Json.decEqObj : (xs ys : List (String × Json)) → Decidable (xs = ys)
  | [], [] => .isTrue rfl
  | [], _ :: _ => .isFalse (fun h => List.noConfusion h)
  | _ :: _, [] => .isFalse (fun h => List.noConfusion h)
  | (s1, j1) :: xs, (s2, j2) :: ys =>
      if hs : s1 = s2 then
        match Json.decEq j1 j2, Json.decEqObj xs ys with
        | .isTrue h1, .isTrue h2 => .isTrue (by rw [hs, h1, h2])
        | .isFalse h1, _ => .isFalse (by simp [h1])
        | _, .isFalse h2 => .isFalse (by simp [h2])
      else .isFalse (by simp [hs])

end

instance : DecidableEq Json := Json.decEq

/-- Python dictionary subscript `j[k]` restricted to the success case:
`some v` when `j` is an object with field `k`; `none` when the subscript
would raise (`KeyError` on a missing field, `TypeError` on a non-dict).
Every caller in the script catches both exceptions identically, so folding
them into `none` is faithful. -/
def Json.getField : Json → String → Option Json
  | .obj fields, k => fields.lookup k
  | _, _ => none

/-- The Python values that flow through this script: JSON-derived values
(strings, `None`, dicts, ...) and tuples.  The only tuple the script builds
is the failure pair `(None, None)`. -/
inductive PyVal where
  | vjson : Json → PyVal
  | vpair : PyVal → PyVal → PyVal
deriving DecidableEq

/-- The failure value `(None, None)` that every `except` branch of the
script returns. -/
def noneNone : PyVal := .vpair (.vjson .null) (.vjson .null)

/-- Python `None`. -/
def pyNone : PyVal := .vjson .null

mutual

/-- Python `repr()` of a JSON-derived value (as used inside tuple
formatting).  Lists and dicts are rendered in Python's literal syntax. -/
def Json.pyRepr : Json → String
  | .null => "None"
  | .bool true => "True"
  | .bool false => "False"
  | .str s => "'" ++ s ++ "'"
  | .arr xs => "[" ++ Json.pyReprArr xs ++ "]"
  | .obj fs => "\x7b" ++ Json.pyReprObj fs ++ "\x7d"

/-- Comma-separated `repr()` of list elements. -/
def Json.pyReprArr : List Json → String
  | [] => ""
  | [x] => x.pyRepr
  | x :: xs => x.pyRepr ++ ", " ++ Json.pyReprArr xs

/-- Comma-separated `repr()` of dict entries. -/
def Json.pyReprObj : List (String × Json) → String
  | [] => ""
  | [(s, v)] => "'" ++ s ++ "': " ++ v.pyRepr
  | (s, v) :: fs => "'" ++ s ++ "': " ++ v.pyRepr ++ ", " ++ Json.pyReprObj fs

end

/-- Python `str()` of a JSON-derived value: like `repr()` except that a
string is rendered without quotes. -/
def Json.pyStr : Json → String
  | .str s => s
  | j => j.pyRepr

/-- Python `str()` of a `PyVal`; a tuple renders its components with
`repr()`, so `str((None, None)) = "(None, None)"`. -/
def PyVal.pyRepr : PyVal → String
  | .vjson j => j.pyRepr
  | .vpair a b => "(" ++ a.pyRepr ++ ", " ++ b.pyRepr ++ ")"

/-- Python `str()` of a `PyVal` (used by f-string interpolation). -/
def PyVal.pyStr : PyVal → String
  | .vjson j => j.pyStr
  | v => v.pyRepr

/-- `True` exactly when the value is a Python `str`; `"BMS Service is " +
text` raises `TypeError` for every other value. -/
def PyVal.isStr : PyVal → Bool
  | .vjson (.str _) => true
  | _ => false

/-- JSON serialisation of a `PyVal` as `requests` would perform it for a
request body field (a tuple serialises as a JSON array). -/
def PyVal.toJson : PyVal → Json
  | .vjson j => j
  | .vpair a b => .arr [a.toJson, b.toJson]

/-- Outcome of a single `requests` call as seen by the script: either the
library raised a transport-level `RequestException`, or a response with a
status code and a JSON body arrived. -/
inductive HttpOutcome where
  | transportError : HttpOutcome
  | response : Nat → Json → HttpOutcome
deriving DecidableEq

/-- Result of `googleSheetConnectNew`: either a connected spreadsheet
handle or the failure value `(None, None)` returned by its `except`
branch. -/
inductive SheetConn where
  | sheet : SheetConn
  | nonePair : SheetConn
deriving DecidableEq

/-- Python truthiness of the value held in `spreadsheet`: a `gspread`
`Spreadsheet` object is truthy, and so is the two-element tuple
`(None, None)`.  Hence `if not spreadsheet:` can never fire. -/
def SheetConn.pyTruthy : SheetConn → Bool
  | _ => true

/-- Observable events of one run: invocations of the three pipeline helper
functions and the outbound HTTP requests they make. -/
inductive Event where
  /-- `authenticate(username, password)` was invoked. -/
  | authCall : Json → Json → Event
  /-- `checkStausOfService(token)` was invoked. -/
  | statusCall : PyVal → Event
  /-- `post_to_webhook(text, color)` was invoked. -/
  | notifyCall : PyVal → PyVal → Event
  /-- `requests.request(reqType, url, headers, json)` was attempted in
  `apiCaller`, with the given method, url, JSON payload and the value of
  the `Authorization` header. -/
  | httpRequest : String → String → Option Json → String → Event
  /-- `requests.post(webhook_url, json=body)` was attempted in
  `post_to_webhook`. -/
  | httpPost : String → Json → Event
deriving DecidableEq

/-- The external world of one run: module-level configuration read from the
environment, the parsed keys file, the spreadsheet backend and the
behaviour of every HTTP endpoint. -/
structure World where
  /-- `os.getenv('WEBHOOK_URL')`: `none` models an unset variable. -/
  webhook_url : Option String
  /-- `os.getenv('SERVICE_API_URL')` (the status endpoint). -/
  service_api_url : String
  /-- `os.getenv('AUTH_API_URL')` (the auth endpoint). -/
  auth_api_url : String
  /-- The keys file `keys.json` as read by `get_excel_key`: `some table`
  when opening and `json.load` succeed and yield a dict, `none` when any
  exception is raised there. -/
  keysFile : Option (List (String × Json))
  /-- Does `gspread.service_account(...)` succeed in
  `googleSheetConnectNew`? -/
  serviceAccountOk : Bool
  /-- Does `gc.open_by_key k` succeed for the string key `k`?  (Opening
  with a non-string argument always raises.) -/
  openByKey : String → Bool
  /-- Outcome of `spreadsheet.get_worksheet(0)`: `.error ()` when it
  raises, `.ok none` when it returns `None`, `.ok (some ())` when it
  returns a worksheet object. -/
  worksheet0 : Except Unit (Option Unit)
  /-- Outcome of `worksheet.get_all_records()`: the rows as
  header-to-value dictionaries, or an exception. -/
  getAllRecords : Except Unit (List (List (String × Json)))
  /-- Behaviour of `requests.request method url headers json`: a function
  of the method, url, JSON payload and `Authorization` header value. -/
  http : String → String → Option Json → String → HttpOutcome
  /-- Outcome of `requests.post(webhook_url, json=body)`. -/
  webhookPost : String → Json → HttpOutcome

/-- `apiCaller(url, reqType, jsonPayload, token)`: builds the header
`Authorization: Bearer <str(token)>`, attempts the request and calls
`raise_for_status()`, which raises exactly for status codes in
`[400, 600)`.  Returns the response on success, propagates the exception
(`.error ()`) otherwise, and records the attempted request. -/
def apiCaller (w : World) (url : String) (reqType : String)
    (jsonPayload : Option Json) (token : PyVal) :
    Except Unit (Nat × Json) × List Event :=
  let authHeader := "Bearer " ++ token.pyStr
  let ev := [Event.httpRequest reqType url jsonPayload authHeader]
  match w.http reqType url jsonPayload authHeader with
  | .transportError => (.error (), ev)
  | .response code body =>
      if 400 ≤ code ∧ code < 600 then (.error (), ev) else (.ok (code, body), ev)

/-- `authenticate(username, password)`: POSTs
`{"username": username, "password": password}` to the auth endpoint via
`apiCaller` with `token=None`, returns `response.json()['token']` on
success and the failure pair `(None, None)` on any exception. -/
def authenticate (w : World) (username password : Json) : PyVal × List Event :=
  let payload := Json.obj [("username", username), ("password", password)]
  let (r, evs) := apiCaller w w.auth_api_url "POST" (some payload) pyNone
  let evs := Event.authCall username password :: evs
  match r with
  | .error _ => (noneNone, evs)
  | .ok (_, body) =>
      match body.getField "token" with
      | none => (noneNone, evs)
      | some t => (.vjson t, evs)

/-- `checkStausOfService(token)`: GETs the status endpoint via `apiCaller`
with the given token and no payload, returns
`str(response.json()['status']['status'])` on success and the failure pair
`(None, None)` on any exception. -/
def checkStausOfService (w : World) (token : PyVal) : PyVal × List Event :=
  let (r, evs) := apiCaller w w.service_api_url "GET" none token
  let evs := Event.statusCall token :: evs
  match r with
  | .error _ => (noneNone, evs)
  | .ok (_, body) =>
      match (body.getField "status").bind (fun s => s.getField "status") with
      | none => (noneNone, evs)
      | some v => (.vjson (.str v.pyStr), evs)

/-- `get_excel_key(key_name)`: reads the keys file and returns
`config.get(key_name, "")`; on any exception it logs and falls through,
returning `None`. -/
def get_excel_key (w : World) (key_name : String) : PyVal :=
  match w.keysFile with
  | none => pyNone
  | some config =>
      match config.lookup key_name with
      | none => .vjson (.str "")
      | some v => .vjson v

/-- `googleSheetConnectNew(EXCEL_KEY)`: authenticates with the service
account and opens the spreadsheet by key; on any exception it logs and
returns the pair `(None, None)`.  Opening succeeds only for a string key
accepted by the backend. -/
def googleSheetConnectNew (w : World) (key : PyVal) : SheetConn :=
  if w.serviceAccountOk then
    match key with
    | .vjson (.str s) => if w.openByKey s then .sheet else .nonePair
    | _ => .nonePair
  else .nonePair

/-- The adaptive-card request body built by `post_to_webhook`, verbatim
from the script. -/
def adaptiveCardBody (text : String) (color : Json) : Json :=
  .obj [("type", .str "AdaptiveCard"),
        ("$schema", .str "http://adaptivecards.io/schemas/adaptive-card.json"),
        ("body", .arr
          [.obj [("type", .str "Container"),
                 ("items", .arr
                   [.obj [("type", .str "TextBlock"),
                          ("text", .str text),
                          ("wrap", .bool true),
                          ("spacing", .str "Medium"),
                          ("horizontalAlignment", .str "Center"),
                          ("height", .str "stretch"),
                          ("style", .str "heading"),
                          ("fontType", .str "Monospace"),
                          ("size", .str "ExtraLarge"),
                          ("weight", .str "Bolder"),
                          ("color", color),
                          ("isSubtle", .bool true)]])]])]

/-- `post_to_webhook(text, color)`: no-ops when `webhook_url` is falsy
(unset or empty).  Otherwise it builds the adaptive-card body — the
expression `"BMS Service is " + text` raises an uncaught `TypeError` when
`text` is not a `str` — and then POSTs it inside a `try` block whose
`except` only logs, so the HTTP outcome never escapes. -/
def post_to_webhook (w : World) (text color : PyVal) :
    Except Unit Unit × List Event :=
  let ev0 := [Event.notifyCall text color]
  match w.webhook_url with
  | none => (.ok (), ev0)
  | some u =>
      if u = "" then (.ok (), ev0)
      else
        match text with
        | .vjson (.str s) =>
            let body := adaptiveCardBody ("BMS Service is " ++ s) color.toJson
            match w.webhookPost u body with
            | _ => (.ok (), ev0 ++ [Event.httpPost u body])
        | _ => (.error (), ev0)

/-- `process_all_req()`: the orchestrator.  The whole body is wrapped in a
`try` whose `except` returns `(None, None)`; the successful path returns
`"Success"`.  Returns the result value together with the trace of events
of the run. -/
def process_all_req (w : World) : PyVal × List Event :=
  let key := get_excel_key w "WINDOWS_SERVER_PASS"
  let spreadsheet := googleSheetConnectNew w key
  if !spreadsheet.pyTruthy then
    (noneNone, [])
  else
    match spreadsheet with
    | .nonePair => (noneNone, [])
    | .sheet =>
        match w.worksheet0 with
        | .error _ => (noneNone, [])
        | .ok none => (noneNone, [])
        | .ok (some _) =>
            match w.getAllRecords with
            | .error _ => (noneNone, [])
            | .ok data =>
                match data.getLast? with
                | none => (noneNone, [])
                | some lastRow =>
                    match lastRow.lookup "Username", lastRow.lookup "Password" with
                    | some u, some p =>
                        let (access_token, evs1) := authenticate w u p
                        let (service_message, evs2) :=
                          checkStausOfService w access_token
                        let (r, evs3) :=
                          if service_message = PyVal.vjson (.str "Running") then
                            post_to_webhook w service_message (.vjson (.str "Good"))
                          else
                            post_to_webhook w service_message (.vjson (.str "Warning"))
                        match r with
                        | .ok _ => (.vjson (.str "Success"), evs1 ++ evs2 ++ evs3)
                        | .error _ => (noneNone, evs1 ++ evs2 ++ evs3)
                    | _, _ => (noneNone, [])

/-! ### Concrete worlds used to instantiate the theorems -/

/-- End-to-end scenario world: key present, sheet opens, one credential
row, auth returns a token, status reports `"Running"`, webhook accepts. -/
def goodWorld : World :=
  { webhook_url := some "https://hook"
    service_api_url := "https://svc/status"
    auth_api_url := "https://svc/auth"
    keysFile := some [("WINDOWS_SERVER_PASS", .str "SHEET123")]
    serviceAccountOk := true
    openByKey := fun k => k == "SHEET123"
    worksheet0 := .ok (some ())
    getAllRecords := .ok [[("Username", .str "svc"), ("Password", .str "pw1")]]
    http := fun method url _ _ =>
      if method == "POST" && url == "https://svc/auth" then
        .response 200 (.obj [("token", .str "abc")])
      else if method == "GET" && url == "https://svc/status" then
        .response 200 (.obj [("status", .obj [("status", .str "Running")])])
      else .transportError
    webhookPost := fun _ _ => .response 202 .null }

/-- Like `goodWorld` but the auth endpoint answers HTTP 401 and every
other request fails at transport level. -/
def authFailWorld : World :=
  { goodWorld with
    http := fun method url _ _ =>
      if method == "POST" && url == "https://svc/auth" then
        .response 401 (.obj [("detail", .str "bad credentials")])
      else .transportError }

/-- Like `goodWorld` but the keys table lacks `"WINDOWS_SERVER_PASS"`. -/
def missingKeyWorld : World :=
  { goodWorld with keysFile := some [("OTHER", .str "X")] }

/-- Like `goodWorld` but `WEBHOOK_URL` is unset. -/
def noWebhookWorld : World := { goodWorld with webhook_url := none }

/-- Auth fails and the webhook URL is unset. -/
def noWebhookAuthFailWorld : World := { authFailWorld with webhook_url := none }

/-- Like `goodWorld` but the webhook endpoint answers HTTP 500. -/
def badWebhookWorld : World :=
  { goodWorld with webhookPost := fun _ _ => .response 500 .null }

/-- Like `goodWorld` but the service-account authentication of the
spreadsheet client fails. -/
def badAccountWorld : World := { goodWorld with serviceAccountOk := false }

/-- The text of the single text block of an adaptive-card body: defined
only when the card has exactly one container holding exactly one item. -/
def cardText (j : Json) : Option Json :=
  match j.getField "body" with
  | some (.arr [container]) =>
      match container.getField "items" with
      | some (.arr [tb]) => tb.getField "text"
      | _ => none
  | _ => none

/-- The color of the single text block of an adaptive-card body. -/
def cardColor (j : Json) : Option Json :=
  match j.getField "body" with
  | some (.arr [container]) =>
      match container.getField "items" with
      | some (.arr [tb]) => tb.getField "color"
      | _ => none
  | _ => none

/-- The success test `response.status_code == 202` that `post_to_webhook`
applies to the webhook response. -/
def webhookAccepted : HttpOutcome → Bool
  | .response 202 _ => true
  | _ => false

/-! ### Trace-shape helper lemmas -/

/-- The `Authorization` header built by `apiCaller` for a `None` token. -/
theorem bearer_none : "Bearer " ++ PyVal.pyStr pyNone = "Bearer None" := by decide

/-- The trace of `authenticate` is always exactly the invocation event
followed by the attempted POST (the outcome does not change the trace). -/
theorem authenticate_trace (w : World) (u p : Json) :
    (authenticate w u p).2 =
      [Event.authCall u p,
       Event.httpRequest "POST" w.auth_api_url
         (some (.obj [("username", u), ("password", p)])) "Bearer None"] := by
  unfold authenticate apiCaller
  rw [bearer_none]
  rcases h : w.http "POST" w.auth_api_url
      (some (.obj [("username", u), ("password", p)])) "Bearer None" with _ | ⟨code, body⟩
  · simp [h]
  · by_cases hc : 400 ≤ code ∧ code < 600
    · simp [h, hc]
    · rcases hb : body.getField "token" with _ | t <;> simp [h, hc, hb]

/-- The trace of `checkStausOfService` is always exactly the invocation
event followed by the attempted GET. -/
theorem checkStausOfService_trace (w : World) (tok : PyVal) :
    (checkStausOfService w tok).2 =
      [Event.statusCall tok,
       Event.httpRequest "GET" w.service_api_url none ("Bearer " ++ tok.pyStr)] := by
  unfold checkStausOfService apiCaller
  rcases h : w.http "GET" w.service_api_url none ("Bearer " ++ tok.pyStr) with _ | ⟨code, body⟩
  · simp [h]
  · by_cases hc : 400 ≤ code ∧ code < 600
    · simp [h, hc]
    · rcases hb : (body.getField "status").bind (fun s => s.getField "status") with _ | v <;>
        simp [h, hc, hb]

/-- The trace of `post_to_webhook` always begins with its invocation
event, and any further event is the attempted webhook POST. -/
theorem post_to_webhook_trace (w : World) (t c : PyVal) :
    (post_to_webhook w t c).2 = [Event.notifyCall t c] ∨
    ∃ u b, (post_to_webhook w t c).2 = [Event.notifyCall t c, Event.httpPost u b] := by
  unfold post_to_webhook
  rcases hu : w.webhook_url with _ | u
  · left; rfl
  · by_cases he : u = ""
    · left; simp [he]
    · cases t with
      | vjson j =>
          cases j with
          | str s =>
              right
              exact ⟨u, adaptiveCardBody ("BMS Service is " ++ s) c.toJson,
                by simp [he]⟩
          | null => left; simp [he]
          | bool b => left; simp [he]
          | arr xs => left; simp [he]
          | obj fs => left; simp [he]
      | vpair a b => left; simp [he]

/-- Helper: when the sheet connection fails, the orchestrator's own guard
does not fire (the failure pair is truthy), `get_worksheet` raises on the
pair, the handler returns the failure pair, and no event is produced. -/
theorem process_all_req_connect_failure (w : World)
    (hconn : googleSheetConnectNew w (get_excel_key w "WINDOWS_SERVER_PASS")
      = .nonePair) :
    process_all_req w = (noneNone, []) := by
  unfold process_all_req
  simp only [hconn, SheetConn.pyTruthy]
  rw [if_neg (by decide)]

/-- Helper: when the sheet connects, the worksheet is accessible and the
last record row has `Username` and `Password` fields, `process_all_req`
reduces to the authenticate → status-check → notify tail. -/
theorem process_all_req_notify_phase (w : World)
    (data : List (List (String × Json))) (row : List (String × Json))
    (u p : Json)
    (hconn : googleSheetConnectNew w (get_excel_key w "WINDOWS_SERVER_PASS")
      = .sheet)
    (hws : w.worksheet0 = .ok (some ()))
    (hrec : w.getAllRecords = .ok data)
    (hlast : data.getLast? = some row)
    (hu : row.lookup "Username" = some u)
    (hp : row.lookup "Password" = some p) :
    process_all_req w =
      (let res := authenticate w u p
       let st := checkStausOfService w res.1
       let pw :=
         if st.1 = PyVal.vjson (.str "Running") then
           post_to_webhook w st.1 (.vjson (.str "Good"))
         else
           post_to_webhook w st.1 (.vjson (.str "Warning"))
       ((match pw.1 with
         | .ok _ => PyVal.vjson (.str "Success")
         | .error _ => noneNone),
        res.2 ++ st.2 ++ pw.2)) := by
  unfold process_all_req
  simp only [hconn, hws, hrec, hlast, hu, hp, SheetConn.pyTruthy]
  rw [if_neg (by decide)]
  split <;> rfl

/-- Helper: with an unset or empty webhook URL, `post_to_webhook` only
logs: it returns normally and attempts no HTTP request. -/
theorem post_to_webhook_unconfigured (w : World) (t c : PyVal)
    (h : w.webhook_url = none ∨ w.webhook_url = some "") :
    post_to_webhook w t c = (.ok (), [Event.notifyCall t c]) := by
  unfold post_to_webhook
  rcases h with h | h <;> simp [h]

/-- Helper: with a configured webhook URL and a string text, the webhook
POST is attempted with the adaptive-card body and the function returns
normally whatever the outcome. -/
theorem post_to_webhook_configured_str (w : World) (s : String) (c : PyVal)
    (u : String) (hu : w.webhook_url = some u) (hne : u ≠ "") :
    post_to_webhook w (.vjson (.str s)) c =
      (.ok (), [Event.notifyCall (.vjson (.str s)) c,
                Event.httpPost u
                  (adaptiveCardBody ("BMS Service is " ++ s) c.toJson)]) := by
  unfold post_to_webhook
  simp [hu, hne]

/-- Helper: with a configured webhook URL and a non-string text,
`"BMS Service is " + text` raises `TypeError` before the `try` block, so
the exception escapes and no HTTP request is attempted. -/
theorem post_to_webhook_typeerror (w : World) (t c : PyVal) (u : String)
    (hu : w.webhook_url = some u) (hne : u ≠ "") (ht : t.isStr = false) :
    post_to_webhook w t c = (.error (), [Event.notifyCall t c]) := by
  unfold post_to_webhook
  cases t with
  | vjson j =>
      cases j with
      | str s => simp [PyVal.isStr] at ht
      | null => simp [hu, hne]
      | bool b => simp [hu, hne]
      | arr xs => simp [hu, hne]
      | obj fs => simp [hu, hne]
  | vpair a b => simp [hu, hne]

/-- Helper: for a string text, `post_to_webhook` always returns normally
(best-effort notification). -/
theorem post_to_webhook_ok_of_str (w : World) (t c : PyVal)
    (ht : t.isStr = true) : (post_to_webhook w t c).1 = .ok () := by
  cases t with
  | vjson j =>
      cases j with
      | str s =>
          rcases hu : w.webhook_url with _ | u
          · rw [post_to_webhook_unconfigured w _ c (Or.inl hu)]
          · by_cases hne : u = ""
            · rw [post_to_webhook_unconfigured w _ c (Or.inr (hne ▸ hu))]
            · rw [post_to_webhook_configured_str w s c u hu hne]
      | null => simp [PyVal.isStr] at ht
      | bool b => simp [PyVal.isStr] at ht
      | arr xs => simp [PyVal.isStr] at ht
      | obj fs => simp [PyVal.isStr] at ht
  | vpair a b => simp [PyVal.isStr] at ht

/-- Helper: the invocation event of `post_to_webhook` is always in its
trace. -/
theorem notifyCall_mem_post (w : World) (t c : PyVal) :
    Event.notifyCall t c ∈ (post_to_webhook w t c).2 := by
  rcases post_to_webhook_trace w t c with h | ⟨u, b, h⟩ <;> simp [h]

/-! ### Claims -/

/-- C1 (counterexample): in a run where the auth endpoint answers HTTP 401
— so the authentication step fails and yields the failure pair — the
orchestrator nevertheless invokes the status check, with the failure pair
as token, and invokes the webhook notifier, contradicting the claim that
neither is ever invoked after an authentication failure. -/
theorem C1_counterexample :
    (authenticate authFailWorld (.str "svc") (.str "pw1")).1 = noneNone ∧
    Event.statusCall noneNone ∈ (process_all_req authFailWorld).2 ∧
    Event.notifyCall noneNone (.vjson (.str "Warning"))
      ∈ (process_all_req authFailWorld).2 :=
  ⟨by decide, by decide, by decide⟩

/-- C1 (amended): in every run that reaches the authentication step, if
the authentication step fails then `process_all_req` still invokes
`checkStausOfService` — passing the failure pair `(None, None)` as the
token — and still invokes the webhook notifier with the status-check
result; the pipeline is not short-circuited by an authentication
failure. -/
theorem C1_amended_auth_failure_does_not_stop_pipeline (w : World)
    (data : List (List (String × Json))) (row : List (String × Json))
    (u p : Json)
    (hconn : googleSheetConnectNew w (get_excel_key w "WINDOWS_SERVER_PASS")
      = .sheet)
    (hws : w.worksheet0 = .ok (some ()))
    (hrec : w.getAllRecords = .ok data)
    (hlast : data.getLast? = some row)
    (hu : row.lookup "Username" = some u)
    (hp : row.lookup "Password" = some p)
    (hauth : (authenticate w u p).1 = noneNone) :
    Event.statusCall noneNone ∈ (process_all_req w).2 ∧
    ∃ c, Event.notifyCall (checkStausOfService w noneNone).1 c
      ∈ (process_all_req w).2 := by
  rw [process_all_req_notify_phase w data row u p hconn hws hrec hlast hu hp]
  constructor
  · simp [checkStausOfService_trace, hauth]
  · refine ⟨if (checkStausOfService w noneNone).1 = PyVal.vjson (.str "Running")
      then PyVal.vjson (.str "Good") else PyVal.vjson (.str "Warning"), ?_⟩
    by_cases hr : (checkStausOfService w noneNone).1 = PyVal.vjson (.str "Running")
    · simp [hauth, hr, notifyCall_mem_post]
    · simp [hauth, hr, notifyCall_mem_post]

/-- C1 (witness): the amended theorem instantiated at the HTTP-401
world. -/
theorem C1_witness :
    Event.statusCall noneNone ∈ (process_all_req authFailWorld).2 ∧
    ∃ c, Event.notifyCall (checkStausOfService authFailWorld noneNone).1 c
      ∈ (process_all_req authFailWorld).2 :=
  C1_amended_auth_failure_does_not_stop_pipeline authFailWorld
    [[("Username", .str "svc"), ("Password", .str "pw1")]]
    [("Username", .str "svc"), ("Password", .str "pw1")]
    (.str "svc") (.str "pw1")
    (by decide) rfl rfl (by decide) (by decide) (by decide) (by decide)

/-- C2: in every run in which the credential store cannot be opened — the
sheet-connect step yields the failure pair, as happens when the keys table
lacks `"WINDOWS_SERVER_PASS"` so that the empty identifier fails to open —
`process_all_req` performs no authentication call, no status call and no
webhook call, and returns the failure signal. -/
theorem C2_no_calls_when_store_unopened (w : World)
    (hconn : googleSheetConnectNew w (get_excel_key w "WINDOWS_SERVER_PASS")
      = .nonePair) :
    (process_all_req w).1 = noneNone ∧
    (∀ u p, Event.authCall u p ∉ (process_all_req w).2) ∧
    (∀ t, Event.statusCall t ∉ (process_all_req w).2) ∧
    (∀ u b, Event.httpPost u b ∉ (process_all_req w).2) := by
  rw [process_all_req_connect_failure w hconn]
  simp

/-- C2 (witness): instantiated at the world whose keys table lacks the
entry `"WINDOWS_SERVER_PASS"`: the lookup yields the empty identifier, the
open fails, and the run produces the failure signal with no calls. -/
theorem C2_witness :
    get_excel_key missingKeyWorld "WINDOWS_SERVER_PASS" = .vjson (.str "") ∧
    (process_all_req missingKeyWorld).1 = noneNone ∧
    Event.authCall (.str "svc") (.str "pw1")
      ∉ (process_all_req missingKeyWorld).2 ∧
    Event.statusCall noneNone ∉ (process_all_req missingKeyWorld).2 ∧
    Event.httpPost "https://hook"
        (adaptiveCardBody "BMS Service is Running" (.str "Good"))
      ∉ (process_all_req missingKeyWorld).2 :=
  have h := C2_no_calls_when_store_unopened missingKeyWorld (by decide)
  ⟨by decide, h.1, h.2.1 _ _, h.2.2.1 _, h.2.2.2 _ _⟩

/-- C10: `googleSheetConnectNew` never returns a falsy value: on failure
it returns the pair `(None, None)`, and both a spreadsheet handle and the
pair are truthy, so the orchestrator's guard `if not spreadsheet:` can
never fire.  A run whose connect step fails stops with the failure signal
and an empty trace because `get_worksheet` raises on the pair and the
orchestrator's handler catches the exception. -/
theorem C10_guard_never_fires :
    (∀ w k, googleSheetConnectNew w k ≠ .sheet →
       googleSheetConnectNew w k = .nonePair) ∧
    (∀ w k, (googleSheetConnectNew w k).pyTruthy = true) ∧
    (∀ w, googleSheetConnectNew w (get_excel_key w "WINDOWS_SERVER_PASS")
        = .nonePair →
       process_all_req w = (noneNone, [])) := by
  refine ⟨?_, ?_, ?_⟩
  · intro w k h
    cases hc : googleSheetConnectNew w k with
    | sheet => exact absurd hc h
    | nonePair => rfl
  · intro w k
    cases googleSheetConnectNew w k <;> rfl
  · intro w hconn
    exact process_all_req_connect_failure w hconn

/-- C10 (witness): at a world whose service-account authentication fails,
the connect result is the truthy failure pair and the run stops with the
failure signal and no events. -/
theorem C10_witness :
    googleSheetConnectNew badAccountWorld
        (get_excel_key badAccountWorld "WINDOWS_SERVER_PASS") = .nonePair ∧
    (googleSheetConnectNew badAccountWorld
        (get_excel_key badAccountWorld "WINDOWS_SERVER_PASS")).pyTruthy
      = true ∧
    process_all_req badAccountWorld = (noneNone, []) :=
  ⟨C10_guard_never_fires.1 badAccountWorld _ (by decide),
   C10_guard_never_fires.2.1 badAccountWorld _,
   C10_guard_never_fires.2.2 badAccountWorld (by decide)⟩

/-- C3: in every run that reaches the notification step, the notifier is
invoked with color `"Good"` when the status check produced the label
`"Running"`, and with color `"Warning"` for any other status-check result
(including the failure pair from a failed check). -/
theorem C3_color_policy (w : World)
    (data : List (List (String × Json))) (row : List (String × Json))
    (u p : Json)
    (hconn : googleSheetConnectNew w (get_excel_key w "WINDOWS_SERVER_PASS")
      = .sheet)
    (hws : w.worksheet0 = .ok (some ()))
    (hrec : w.getAllRecords = .ok data)
    (hlast : data.getLast? = some row)
    (hu : row.lookup "Username" = some u)
    (hp : row.lookup "Password" = some p) :
    ((checkStausOfService w (authenticate w u p).1).1
        = PyVal.vjson (.str "Running") →
      Event.notifyCall (checkStausOfService w (authenticate w u p).1).1
        (.vjson (.str "Good")) ∈ (process_all_req w).2) ∧
    ((checkStausOfService w (authenticate w u p).1).1
        ≠ PyVal.vjson (.str "Running") →
      Event.notifyCall (checkStausOfService w (authenticate w u p).1).1
        (.vjson (.str "Warning")) ∈ (process_all_req w).2) := by
  rw [process_all_req_notify_phase w data row u p hconn hws hrec hlast hu hp]
  constructor
  · intro hr
    simp [hr, notifyCall_mem_post]
  · intro hr
    simp [hr, notifyCall_mem_post]

/-- C3 (witness): color `"Good"` in the all-good world, color `"Warning"`
in the world whose auth (and hence status check) fails. -/
theorem C3_witness :
    Event.notifyCall (.vjson (.str "Running")) (.vjson (.str "Good"))
      ∈ (process_all_req goodWorld).2 ∧
    Event.notifyCall noneNone (.vjson (.str "Warning"))
      ∈ (process_all_req authFailWorld).2 :=
  ⟨(C3_color_policy goodWorld
      [[("Username", .str "svc"), ("Password", .str "pw1")]]
      [("Username", .str "svc"), ("Password", .str "pw1")]
      (.str "svc") (.str "pw1")
      (by decide) rfl rfl (by decide) (by decide) (by decide)).1 (by decide),
   (C3_color_policy authFailWorld
      [[("Username", .str "svc"), ("Password", .str "pw1")]]
      [("Username", .str "svc"), ("Password", .str "pw1")]
      (.str "svc") (.str "pw1")
      (by decide) rfl rfl (by decide) (by decide) (by decide)).2 (by decide)⟩

/-- C8: the credentials passed to the authenticator are the `Username` and
`Password` fields of the last data row of the worksheet; if the worksheet
is inaccessible (the access raises or returns `None`) or has no data rows,
the run returns the failure signal and no authentication occurs. -/
theorem C8_last_row_credentials :
    (∀ w data row u p,
       googleSheetConnectNew w (get_excel_key w "WINDOWS_SERVER_PASS")
         = .sheet →
       w.worksheet0 = .ok (some ()) →
       w.getAllRecords = .ok data →
       data.getLast? = some row →
       row.lookup "Username" = some u →
       row.lookup "Password" = some p →
       Event.authCall u p ∈ (process_all_req w).2) ∧
    (∀ w,
       googleSheetConnectNew w (get_excel_key w "WINDOWS_SERVER_PASS")
         = .sheet →
       w.worksheet0 = .error () ∨ w.worksheet0 = .ok none →
       process_all_req w = (noneNone, [])) ∧
    (∀ w,
       googleSheetConnectNew w (get_excel_key w "WINDOWS_SERVER_PASS")
         = .sheet →
       w.worksheet0 = .ok (some ()) →
       w.getAllRecords = .ok [] →
       process_all_req w = (noneNone, [])) := by
  refine ⟨?_, ?_, ?_⟩
  · intro w data row u p hconn hws hrec hlast hu hp
    rw [process_all_req_notify_phase w data row u p hconn hws hrec hlast hu hp]
    simp [authenticate_trace]
  · intro w hconn hws
    unfold process_all_req
    rcases hws with hws | hws <;>
      (simp only [hconn, hws, SheetConn.pyTruthy]
       rw [if_neg (by decide)])
  · intro w hconn hws hrec
    unfold process_all_req
    simp only [hconn, hws, hrec, SheetConn.pyTruthy]
    rw [if_neg (by decide)]
    rfl

/-- C8 (witness): in the all-good world the authenticator receives the
(only, hence last) row's `Username`/`Password` values. -/
theorem C8_witness :
    Event.authCall (.str "svc") (.str "pw1") ∈ (process_all_req goodWorld).2 :=
  C8_last_row_credentials.1 goodWorld
    [[("Username", .str "svc"), ("Password", .str "pw1")]]
    [("Username", .str "svc"), ("Password", .str "pw1")]
    (.str "svc") (.str "pw1")
    (by decide) rfl rfl (by decide) (by decide) (by decide)

/-- C5: when the webhook URL is unconfigured (unset or empty), the
notifier attempts no HTTP call and returns normally after logging; a run
that reaches the notification step still returns `"Success"` and its trace
contains no webhook POST. -/
theorem C5_unconfigured_webhook_noop :
    (∀ w t c, w.webhook_url = none ∨ w.webhook_url = some "" →
       post_to_webhook w t c = (.ok (), [Event.notifyCall t c])) ∧
    (∀ w data row u p,
       googleSheetConnectNew w (get_excel_key w "WINDOWS_SERVER_PASS")
         = .sheet →
       w.worksheet0 = .ok (some ()) →
       w.getAllRecords = .ok data →
       data.getLast? = some row →
       row.lookup "Username" = some u →
       row.lookup "Password" = some p →
       w.webhook_url = none ∨ w.webhook_url = some "" →
       (process_all_req w).1 = PyVal.vjson (.str "Success") ∧
       ∀ v b, Event.httpPost v b ∉ (process_all_req w).2) := by
  refine ⟨fun w t c h => post_to_webhook_unconfigured w t c h, ?_⟩
  intro w data row u p hconn hws hrec hlast hu hp hurl
  rw [process_all_req_notify_phase w data row u p hconn hws hrec hlast hu hp]
  by_cases hr : (checkStausOfService w (authenticate w u p).1).1
      = PyVal.vjson (.str "Running")
  · constructor
    · simp [hr, post_to_webhook_unconfigured _ _ _ hurl]
    · intro v b
      simp [hr, post_to_webhook_unconfigured _ _ _ hurl,
        authenticate_trace, checkStausOfService_trace]
  · constructor
    · simp [hr, post_to_webhook_unconfigured _ _ _ hurl]
    · intro v b
      simp [hr, post_to_webhook_unconfigured _ _ _ hurl,
        authenticate_trace, checkStausOfService_trace]

/-- C5 (witness): with `WEBHOOK_URL` unset and every other step
succeeding, the run returns `"Success"` and no webhook POST occurs. -/
theorem C5_witness :
    (process_all_req noWebhookWorld).1 = PyVal.vjson (.str "Success") ∧
    Event.httpPost "https://hook"
        (adaptiveCardBody "BMS Service is Running" (.str "Good"))
      ∉ (process_all_req noWebhookWorld).2 :=
  have h := C5_unconfigured_webhook_noop.2 noWebhookWorld
    [[("Username", .str "svc"), ("Password", .str "pw1")]]
    [("Username", .str "svc"), ("Password", .str "pw1")]
    (.str "svc") (.str "pw1")
    (by decide) rfl rfl (by decide) (by decide) (by decide) (Or.inl rfl)
  ⟨h.1, h.2 _ _⟩

/-- C6: a webhook transport error or any response other than HTTP 202
never escapes `post_to_webhook` (the `try` block only logs), so a run
whose earlier steps all succeeded still returns `"Success"` even when
every webhook POST fails. -/
theorem C6_webhook_failure_does_not_abort :
    (∀ w t c, (∀ v b, webhookAccepted (w.webhookPost v b) = false) →
       t.isStr = true → (post_to_webhook w t c).1 = .ok ()) ∧
    (∀ w data row u p s,
       googleSheetConnectNew w (get_excel_key w "WINDOWS_SERVER_PASS")
         = .sheet →
       w.worksheet0 = .ok (some ()) →
       w.getAllRecords = .ok data →
       data.getLast? = some row →
       row.lookup "Username" = some u →
       row.lookup "Password" = some p →
       (checkStausOfService w (authenticate w u p).1).1 = PyVal.vjson (.str s) →
       (∀ v b, webhookAccepted (w.webhookPost v b) = false) →
       (process_all_req w).1 = PyVal.vjson (.str "Success")) := by
  refine ⟨fun w t c _ ht => post_to_webhook_ok_of_str w t c ht, ?_⟩
  intro w data row u p s hconn hws hrec hlast hu hp hsm _
  rw [process_all_req_notify_phase w data row u p hconn hws hrec hlast hu hp]
  have hstr : (checkStausOfService w (authenticate w u p).1).1.isStr = true := by
    rw [hsm]
    rfl
  by_cases hr : (checkStausOfService w (authenticate w u p).1).1
      = PyVal.vjson (.str "Running")
  · simp [hr, post_to_webhook_ok_of_str w (PyVal.vjson (.str "Running"))
      (PyVal.vjson (.str "Good")) rfl]
  · simp [hr,
      post_to_webhook_ok_of_str w ((checkStausOfService w (authenticate w u p).1).1)
        (.vjson (.str "Warning")) hstr]

/-- C6 (witness): a webhook endpoint answering HTTP 500 does not change
the run's `"Success"` result. -/
theorem C6_witness :
    webhookAccepted (badWebhookWorld.webhookPost "https://hook"
        (adaptiveCardBody "BMS Service is Running" (.str "Good"))) = false ∧
    (process_all_req badWebhookWorld).1 = PyVal.vjson (.str "Success") :=
  ⟨rfl,
   C6_webhook_failure_does_not_abort.2 badWebhookWorld
     [[("Username", .str "svc"), ("Password", .str "pw1")]]
     [("Username", .str "svc"), ("Password", .str "pw1")]
     (.str "svc") (.str "pw1") "Running"
     (by decide) rfl rfl (by decide) (by decide) (by decide) (by decide)
     (fun _ _ => rfl)⟩

/-- C4: with a configured webhook URL, the notifier POSTs an adaptive-card
body whose single text block reads exactly `"BMS Service is "` followed by
the text, styled with the given color; in the end-to-end `Running`
scenario the webhook receives text `"BMS Service is Running"` with color
`"Good"` and the run returns `"Success"`. -/
theorem C4_card_text_and_color :
    (∀ w s c u, w.webhook_url = some u → u ≠ "" →
       ∃ b, (post_to_webhook w (.vjson (.str s)) c).2 =
              [Event.notifyCall (.vjson (.str s)) c, Event.httpPost u b] ∧
            cardText b = some (.str ("BMS Service is " ++ s)) ∧
            cardColor b = some c.toJson) ∧
    ((process_all_req goodWorld).1 = PyVal.vjson (.str "Success") ∧
     Event.httpPost "https://hook"
         (adaptiveCardBody "BMS Service is Running" (.str "Good"))
       ∈ (process_all_req goodWorld).2 ∧
     cardText (adaptiveCardBody "BMS Service is Running" (.str "Good"))
       = some (.str "BMS Service is Running") ∧
     cardColor (adaptiveCardBody "BMS Service is Running" (.str "Good"))
       = some (.str "Good")) := by
  constructor
  · intro w s c u hu hne
    refine ⟨adaptiveCardBody ("BMS Service is " ++ s) c.toJson, ?_, rfl, rfl⟩
    rw [post_to_webhook_configured_str w s c u hu hne]
  · exact ⟨by decide, by decide, by decide, by decide⟩

/-- C4 (witness): the shape part instantiated at the `"Stopped"` /
`"Warning"` notification in the all-good world. -/
theorem C4_witness :
    ∃ b, (post_to_webhook goodWorld (.vjson (.str "Stopped"))
            (.vjson (.str "Warning"))).2 =
           [Event.notifyCall (.vjson (.str "Stopped")) (.vjson (.str "Warning")),
            Event.httpPost "https://hook" b] ∧
         cardText b = some (.str "BMS Service is Stopped") ∧
         cardColor b = some (.str "Warning") :=
  C4_card_text_and_color.1 goodWorld "Stopped" (.vjson (.str "Warning"))
    "https://hook" rfl (by decide)

/-- C7 (counterexample): the auth request does carry a bearer-style
`Authorization` header: its value is the literal string `"Bearer None"`,
the f-string rendering of the `None` token — contradicting the claim that
the request carries no bearer Authorization header. -/
theorem C7_counterexample :
    (authenticate goodWorld (.str "svc") (.str "pw1")).2 =
      [Event.authCall (.str "svc") (.str "pw1"),
       Event.httpRequest "POST" "https://svc/auth"
         (some (.obj [("username", .str "svc"), ("password", .str "pw1")]))
         "Bearer None"] ∧
    "Bearer None" = "Bearer" ++ " None" :=
  ⟨by decide, by decide⟩

/-- C7 (amended): `authenticate(username, password)` POSTs the JSON body
`{"username": username, "password": password}` to the configured auth
endpoint with the Authorization header `"Bearer None"` (the header is
present, not absent), and on a success response returns the body's
`token` field. -/
theorem C7_amended_auth_request_shape (w : World) (username password : Json) :
    (authenticate w username password).2 =
      [Event.authCall username password,
       Event.httpRequest "POST" w.auth_api_url
         (some (.obj [("username", username), ("password", password)]))
         "Bearer None"] ∧
    (∀ code body t,
       w.http "POST" w.auth_api_url
           (some (.obj [("username", username), ("password", password)]))
           "Bearer None" = .response code body →
       code < 400 →
       body.getField "token" = some t →
       (authenticate w username password).1 = .vjson t) := by
  refine ⟨authenticate_trace w username password, ?_⟩
  intro code body t hresp hcode htok
  have hc : ¬(400 ≤ code ∧ code < 600) := by omega
  unfold authenticate apiCaller
  simp [bearer_none, hresp, hc, htok]

/-- C7 (witness): the amended theorem instantiated at the all-good world,
where the endpoint answers 200 with token `"abc"`. -/
theorem C7_witness :
    (authenticate goodWorld (.str "u1") (.str "p1")).1 = .vjson (.str "abc") :=
  (C7_amended_auth_request_shape goodWorld (.str "u1") (.str "p1")).2
    200 (.obj [("token", .str "abc")]) (.str "abc") (by decide) (by decide)
    (by decide)

/-- C9 (counterexample): with the webhook URL unset, `post_to_webhook`
returns before building the message text, so the non-string failure pair
raises no `TypeError`, and a run whose status check failed completes with
`"Success"` instead of the failure signal — the claim as stated (for every
non-string text) is false. -/
theorem C9_counterexample :
    noneNone.isStr = false ∧
    post_to_webhook noWebhookAuthFailWorld noneNone (.vjson (.str "Warning"))
      = (.ok (), [Event.notifyCall noneNone (.vjson (.str "Warning"))]) ∧
    (process_all_req noWebhookAuthFailWorld).1 = PyVal.vjson (.str "Success") :=
  ⟨by decide, rfl, by decide⟩

/-- C9 (amended): when the webhook URL is configured (set and nonempty), a
non-string text makes `post_to_webhook` raise `TypeError` while building
the message text, before the `try` block around the HTTP call — no webhook
POST is attempted — and a run that reaches notification with a failed
status check aborts into the orchestrator's handler and returns the
failure signal. -/
theorem C9_amended_typeerror_when_configured :
    (∀ w t c u, w.webhook_url = some u → u ≠ "" → t.isStr = false →
       post_to_webhook w t c = (.error (), [Event.notifyCall t c])) ∧
    (∀ w data row u p url,
       googleSheetConnectNew w (get_excel_key w "WINDOWS_SERVER_PASS")
         = .sheet →
       w.worksheet0 = .ok (some ()) →
       w.getAllRecords = .ok data →
       data.getLast? = some row →
       row.lookup "Username" = some u →
       row.lookup "Password" = some p →
       w.webhook_url = some url → url ≠ "" →
       (checkStausOfService w (authenticate w u p).1).1 = noneNone →
       (process_all_req w).1 = noneNone ∧
       ∀ v b, Event.httpPost v b ∉ (process_all_req w).2) := by
  refine ⟨fun w t c u hu hne ht => post_to_webhook_typeerror w t c u hu hne ht,
    ?_⟩
  intro w data row u p url hconn hws hrec hlast hu hp hurl hne hsm
  rw [process_all_req_notify_phase w data row u p hconn hws hrec hlast hu hp]
  have hr : (checkStausOfService w (authenticate w u p).1).1
      ≠ PyVal.vjson (.str "Running") := by
    rw [hsm]
    decide
  have hpost := post_to_webhook_typeerror w
    ((checkStausOfService w (authenticate w u p).1).1) (.vjson (.str "Warning"))
    url hurl hne (by rw [hsm]; rfl)
  constructor
  · simp [hr, hpost]
  · intro v b
    simp [hr, hpost, authenticate_trace, checkStausOfService_trace]

/-- C9 (witness): in the HTTP-401 world (webhook configured), the run
returns the failure signal and no webhook POST occurs. -/
theorem C9_witness :
    (process_all_req authFailWorld).1 = noneNone ∧
    Event.httpPost "https://hook"
        (adaptiveCardBody "BMS Service is Running" (.str "Good"))
      ∉ (process_all_req authFailWorld).2 :=
  have h := C9_amended_typeerror_when_configured.2 authFailWorld
    [[("Username", .str "svc"), ("Password", .str "pw1")]]
    [("Username", .str "svc"), ("Password", .str "pw1")]
    (.str "svc") (.str "pw1") "https://hook"
    (by decide) rfl rfl (by decide) (by decide) (by decide) rfl (by decide)
    (by decide)
  ⟨h.1, h.2 _ _⟩
